import Mathlib

/-!
Verification development for the `serve.py` MCP gateway to a Weaviate
vector database.  The module's own logic — environment-based credential
resolution, Vertex auth header composition for the REST and gRPC
transports, a background OAuth token refresher, and the per-tool
connection lifecycle — is embedded shallowly below.  Network and
filesystem effects (token exchange, session establishment, database
queries) are modelled as oracle inputs, so every function here is a pure
translation of the corresponding Python definition.

`serve.py` defines `_connect` twice; the second definition (after the
refresher section) overwrites the first at module load, so the second is
the effective one.  Both are embedded: `build_vertex_headers` is the
composer used by the superseded first `_connect`, while
`connectRestHeaders` / `connectGrpcMetaAdd` embed the header logic of
the effective `_connect`.
-/

set_option autoImplicit false

namespace Serve

/-- Python truthiness of an optional environment-variable value:
`None` and the empty string are falsy. -/
def truthy : Option String → Bool
  | none => false
  | some s => s ≠ ""

/-- Python `a or b` on two optional strings: the first operand if it is
truthy, otherwise the second (even if the second is falsy). -/
def pyOr (a b : Option String) : Option String :=
  if truthy a then a else b

/-- The environment-variable surface the auth subsystem reads, plus a
snapshot of filesystem existence used by the refresher's credential
check.  `fileExists` models `os.path.exists`. -/
structure Env where
  weaviateClusterUrl : Option String
  weaviateUrl : Option String
  weaviateApiKey : Option String
  vertexApikey : Option String
  gacJson : Option String
  gacPath : Option String
  vertexUseOauth : Option String
  fileExists : String → Bool

/-- A single-quote character, used in the collection-not-found messages. -/
def sq : String := (Char.ofNat 39).toString

/-- Error message raised by `_get_weaviate_url`. -/
def urlMissingMsg : String := "Please set WEAVIATE_URL or WEAVIATE_CLUSTER_URL."

/-- Error message raised by `_get_weaviate_api_key`. -/
def apiKeyMissingMsg : String := "Please set WEAVIATE_API_KEY."

/-- `_get_weaviate_url`: `WEAVIATE_CLUSTER_URL or WEAVIATE_URL`, raising
when the result is falsy. -/
def get_weaviate_url (env : Env) : Except String String :=
  match pyOr env.weaviateClusterUrl env.weaviateUrl with
  | none => Except.error urlMissingMsg
  | some u => if u = "" then Except.error urlMissingMsg else Except.ok u

/-- `_get_weaviate_api_key`: `WEAVIATE_API_KEY`, raising when falsy. -/
def get_weaviate_api_key (env : Env) : Except String String :=
  match env.weaviateApiKey with
  | none => Except.error apiKeyMissingMsg
  | some k => if k = "" then Except.error apiKeyMissingMsg else Except.ok k

/-- Oracle for the OAuth token exchange performed by
`service_account.Credentials` + `creds.refresh(Request())`.
`refreshResult` is the value of `creds.token` after a successful network
refresh (`none`/empty when the provider returned no token), or an error
when loading the credential file or the refresh itself raised. -/
structure MintOracle where
  refreshResult : Except String (Option String)

/-- The fixed path inline JSON credentials are persisted to. -/
def tmpCredPath : String := "/app/gcp_credentials.json"

/-- Credential-path resolution shared by `_mint_vertex_token_now` and the
OAuth branch of the effective `_connect`: if
`GOOGLE_APPLICATION_CREDENTIALS_JSON` is set and
`GOOGLE_APPLICATION_CREDENTIALS` is not, the JSON is written to the fixed
temporary path, which then becomes the credential path. -/
def resolvedGacPath (env : Env) : Option String :=
  if truthy env.gacJson && !truthy env.gacPath then some tmpCredPath
  else env.gacPath

/-- `_mint_vertex_token_now`: resolve the credential file, exchange it for
an access token, and raise if no credential path is available, the
exchange fails, or the returned token is falsy. -/
def mint_vertex_token_now (env : Env) (oracle : MintOracle) : Except String String :=
  match resolvedGacPath env with
  | none => Except.error "Missing GOOGLE_APPLICATION_CREDENTIALS or GOOGLE_APPLICATION_CREDENTIALS_JSON"
  | some p =>
    if p = "" then
      Except.error "Missing GOOGLE_APPLICATION_CREDENTIALS or GOOGLE_APPLICATION_CREDENTIALS_JSON"
    else
      match oracle.refreshResult with
      | Except.error e => Except.error e
      | Except.ok t =>
        if truthy t then Except.ok (t.getD "")
        else Except.error "Failed to mint Vertex OAuth token"

/-- The four legacy-compatible REST header names used in the static-key
path, in source order. -/
def restKeyNames : List String :=
  ["X-Goog-Vertex-Api-Key", "X-Goog-Api-Key", "X-Palm-Api-Key", "X-Goog-Studio-Api-Key"]

/-- Their lowercase equivalents for the gRPC transport. -/
def grpcKeyNames : List String :=
  ["x-goog-vertex-api-key", "x-goog-api-key", "x-palm-api-key", "x-goog-studio-api-key"]

/-- Output of `_build_vertex_headers`: the REST header map, the gRPC
metadata map, and how many token-minting calls were made. -/
structure ComposeOut where
  rest : List (String × String)
  grpc : List (String × String)
  mintCalls : Nat
deriving DecidableEq, Repr

/-- `_build_vertex_headers` (the composer used by the superseded first
`_connect`): a truthy `VERTEX_APIKEY` is written under the four legacy
names (REST) and their lowercase forms (gRPC) with no mint; otherwise a
token is minted synchronously (raising on failure) and written under the
canonical name on each transport plus a bearer `Authorization` header on
both transports (`Authorization` for REST, `authorization` for gRPC). -/
def build_vertex_headers (env : Env) (oracle : MintOracle) : Except String ComposeOut :=
  if truthy env.vertexApikey then
    let k := env.vertexApikey.getD ""
    Except.ok
      { rest := restKeyNames.map fun n => (n, k)
        grpc := grpcKeyNames.map fun n => (n, k)
        mintCalls := 0 }
  else
    match mint_vertex_token_now env oracle with
    | Except.error e => Except.error e
    | Except.ok token =>
      Except.ok
        { rest := [("X-Goog-Vertex-Api-Key", token), ("Authorization", "Bearer " ++ token)]
          grpc := [("x-goog-vertex-api-key", token), ("authorization", "Bearer " ++ token)]
          mintCalls := 1 }

/-- REST header construction of the effective (second) `_connect`,
together with the number of token-minting attempts.  Static-key path:
the four legacy names, no mint.  OAuth path: if a credential path
resolves, one mint is attempted inside a `try`/`except: pass`; a truthy
token is written under `X-Goog-Vertex-Api-Key` only (no bearer
`Authorization` header), and any failure leaves the headers empty. -/
def connectRestHeaders (env : Env) (oracle : MintOracle) : List (String × String) × Nat :=
  if truthy env.vertexApikey then
    (restKeyNames.map fun n => (n, env.vertexApikey.getD ""), 0)
  else
    match resolvedGacPath env with
    | none => ([], 0)
    | some p =>
      if p = "" then ([], 0)
      else
        match oracle.refreshResult with
        | Except.error _ => ([], 1)
        | Except.ok t => if truthy t then ([("X-Goog-Vertex-Api-Key", t.getD "")], 1) else ([], 1)

/-- gRPC added-keys map of the effective (second) `_connect`: the four
lowercase legacy names in the static-key path, otherwise only
`x-goog-vertex-api-key` copied from the REST map when a token was set
there; never an `authorization` entry. -/
def connectGrpcMetaAdd (env : Env) (restHeaders : List (String × String)) : List (String × String) :=
  if truthy env.vertexApikey then
    grpcKeyNames.map fun n => (n, env.vertexApikey.getD "")
  else
    match restHeaders.lookup "X-Goog-Vertex-Api-Key" with
    | none => []
    | some v => if v = "" then [] else [("x-goog-vertex-api-key", v)]

/-- The REST headers the effective `_connect` attaches to the new
session.  The refresher-published shared header set `_VERTEX_HEADERS` is
in scope as a module global while `_connect` runs, but the body never
reads it, so the attached headers are recomposed locally on every call. -/
def connectAttachedHeaders (_sharedVertexHeaders : List (String × String))
    (env : Env) (oracle : MintOracle) : List (String × String) :=
  (connectRestHeaders env oracle).1

/-- Python `dict.update` on association lists without duplicate keys:
existing keys keep their position and take the new value when present in
the update map; keys only in the update map are appended in its order. -/
def dictUpdate (old upd : List (String × String)) : List (String × String) :=
  (old.map fun kv =>
    match upd.lookup kv.1 with
    | some v => (kv.1, v)
    | none => kv)
  ++ upd.filter fun kv => (old.lookup kv.1).isNone

/-- Opaque relevance metadata attached to a returned object
(`o.metadata`); numeric scores and distances are embedded at an
arbitrary numeric type since the gateway only forwards them. -/
structure WMeta where
  score : Option Int
  distance : Option Int
deriving DecidableEq, Repr

/-- A raw object returned by a database query (`resp.objects` element). -/
structure WObject where
  uuid : String
  properties : List (String × String)
  metadata : Option WMeta
deriving DecidableEq, Repr

/-- Oracle for one collection handle: each query kind and the data/config
operations the handlers call, any of which may raise. -/
structure Collection where
  bm25 : String → Nat → Except String (List WObject)
  nearText : String → Nat → Except String (List WObject)
  hybrid : String → Nat → Except String (List WObject)
  nearVector : List Int → Nat → Except String (List WObject)
  configGet : Except String String
  configGetClass : Except String String
  insertData : Except String String

/-- A client session: the gRPC outgoing-metadata store when the
underlying object exposes it in the expected dict shape (`none` models
the shape check failing, in which case injection is skipped), plus the
operations the tool handlers use. -/
structure Client where
  grpcMetadata : Option (List (String × String))
  isReady : Except String Bool
  collectionsGet : String → Option Collection
  listAll : Except String (List String)

/-- External-world oracle: session establishment
(`weaviate.connect_to_weaviate_cloud`, may raise) as a function of the
cluster URL, database API key and REST headers, and the Vertex embedding
call `_vertex_embed` used by the image tools (may raise). -/
structure World where
  establish : String → String → List (String × String) → Except String Client
  embed : Except String (List Int)

/-- Best-effort gRPC metadata injection of the effective `_connect`: when
the session exposes its metadata store as a dict, merge the added keys
into it without removing anything; otherwise skip (warning only). -/
def injectGrpcMeta (c : Client) (add : List (String × String)) : Client :=
  match c.grpcMetadata with
  | some m => { c with grpcMetadata := some (dictUpdate m add) }
  | none => c

/-- The effective (second) `_connect`: resolve URL and database API key
(raising when absent), compose REST headers, establish the session, then
inject the gRPC added-keys map into the session's metadata store. -/
def connect (env : Env) (oracle : MintOracle) (world : World) : Except String Client :=
  match get_weaviate_url env with
  | Except.error e => Except.error e
  | Except.ok url =>
    match get_weaviate_api_key env with
    | Except.error e => Except.error e
    | Except.ok key =>
      let restHeaders := (connectRestHeaders env oracle).1
      match world.establish url key restHeaders with
      | Except.error e => Except.error e
      | Except.ok client =>
        Except.ok (injectGrpcMeta client (connectGrpcMetaAdd env restHeaders))

/-- Connection lifecycle events emitted by a tool handler. -/
inductive Ev where
  | opened
  | closed
deriving DecidableEq, Repr

/-- The `try ... finally client.close()` block shared by every handler
that opens a connection: the client is acquired, the body runs to its
outcome (normal return or raise), and `close` runs regardless. -/
def withOpenClose {α : Type} (body : Except String α) : Except String α × List Ev :=
  (body, [Ev.opened, Ev.closed])

/-- The result dict of a search-style tool. -/
structure SearchResponse (item : Type) where
  count : Nat
  results : List item
deriving DecidableEq, Repr

/-- A tool's returned dict: either the structured not-found error dict or
the tool-specific success dict. -/
inductive ToolOut (α : Type) where
  | errorDict (msg : String)
  | ok (v : α)
deriving DecidableEq, Repr

/-- `f"Collection '{collection}' not found"`. -/
def notFoundMsg (collection : String) : String :=
  "Collection " ++ sq ++ collection ++ sq ++ " not found"

/-- `f"Collection '{collection}' non trovata"` (the message used by
`hybrid_search` only). -/
def notFoundMsgIt (collection : String) : String :=
  "Collection " ++ sq ++ collection ++ sq ++ " non trovata"

/-- `check_connection`: open a connection, report readiness, always
closing the connection. -/
def check_connection (env : Env) (oracle : MintOracle) (world : World) :
    Except String (ToolOut Bool) × List Ev :=
  match connect env oracle world with
  | Except.error e => (Except.error e, [])
  | Except.ok client =>
    withOpenClose (match client.isReady with
      | Except.error e => Except.error e
      | Except.ok r => Except.ok (ToolOut.ok r))

/-- `sorted(set(names))`. -/
def sortedSet (names : List String) : List String :=
  names.dedup.mergeSort (fun a b => decide (a ≤ b))

/-- `list_collections`: list all collection names, deduplicated and
sorted, always closing the connection. -/
def list_collections (env : Env) (oracle : MintOracle) (world : World) :
    Except String (ToolOut (List String)) × List Ev :=
  match connect env oracle world with
  | Except.error e => (Except.error e, [])
  | Except.ok client =>
    withOpenClose (match client.listAll with
      | Except.error e => Except.error e
      | Except.ok names => Except.ok (ToolOut.ok (sortedSet names)))

/-- The success dict of `get_schema`: the collection name and its config
(an opaque payload, or the fallback info string). -/
structure SchemaOut where
  collection : String
  config : String
deriving DecidableEq, Repr

/-- `get_schema`: not-found dict when the lookup yields no collection;
otherwise the config via `config.get`, falling back to
`config.get_class`, falling back to a fixed info string; the connection
is always closed. -/
def get_schema (env : Env) (oracle : MintOracle) (world : World) (collection : String) :
    Except String (ToolOut SchemaOut) × List Ev :=
  match connect env oracle world with
  | Except.error e => (Except.error e, [])
  | Except.ok client =>
    withOpenClose (match client.collectionsGet collection with
      | none => Except.ok (ToolOut.errorDict (notFoundMsg collection))
      | some coll =>
        let cfg :=
          match coll.configGet with
          | Except.ok c => c
          | Except.error _ =>
            match coll.configGetClass with
            | Except.ok c => c
            | Except.error _ => "config API not available in this client version"
        Except.ok (ToolOut.ok { collection := collection, config := cfg }))

/-- A reshaped `keyword_search` result item. -/
structure KeywordItem where
  uuid : String
  properties : List (String × String)
  bm25_score : Option Int
deriving DecidableEq, Repr

/-- Reshaping of one object in `keyword_search`. -/
def reshapeKeyword (o : WObject) : KeywordItem :=
  { uuid := o.uuid
    properties := o.properties
    bm25_score := o.metadata.bind WMeta.score }

/-- `keyword_search`: BM25 query, reshape every object, return count and
list; not-found dict when the collection lookup yields none; the
connection is always closed. -/
def keyword_search (env : Env) (oracle : MintOracle) (world : World)
    (collection query : String) (limit : Nat) :
    Except String (ToolOut (SearchResponse KeywordItem)) × List Ev :=
  match connect env oracle world with
  | Except.error e => (Except.error e, [])
  | Except.ok client =>
    withOpenClose (match client.collectionsGet collection with
      | none => Except.ok (ToolOut.errorDict (notFoundMsg collection))
      | some coll =>
        match coll.bm25 query limit with
        | Except.error e => Except.error e
        | Except.ok objs =>
          let out := objs.map reshapeKeyword
          Except.ok (ToolOut.ok { count := out.length, results := out }))

/-- A reshaped `semantic_search` / `image_search_vertex` result item. -/
structure DistanceItem where
  uuid : String
  properties : List (String × String)
  distance : Option Int
deriving DecidableEq, Repr

/-- Reshaping of one object in `semantic_search` and
`image_search_vertex`. -/
def reshapeDistance (o : WObject) : DistanceItem :=
  { uuid := o.uuid
    properties := o.properties
    distance := o.metadata.bind WMeta.distance }

/-- `semantic_search`: near-text query, reshape, count + list; the
connection is always closed. -/
def semantic_search (env : Env) (oracle : MintOracle) (world : World)
    (collection query : String) (limit : Nat) :
    Except String (ToolOut (SearchResponse DistanceItem)) × List Ev :=
  match connect env oracle world with
  | Except.error e => (Except.error e, [])
  | Except.ok client =>
    withOpenClose (match client.collectionsGet collection with
      | none => Except.ok (ToolOut.errorDict (notFoundMsg collection))
      | some coll =>
        match coll.nearText query limit with
        | Except.error e => Except.error e
        | Except.ok objs =>
          let out := objs.map reshapeDistance
          Except.ok (ToolOut.ok { count := out.length, results := out }))

/-- A reshaped `hybrid_search` result item: score and distance are
attached only when the object carries a metadata record. -/
structure HybridItem where
  uuid : String
  properties : List (String × String)
  meta : Option (Option Int × Option Int)
deriving DecidableEq, Repr

/-- Reshaping of one object in `hybrid_search`: `if md:` attaches both
relevance fields only when metadata is present. -/
def reshapeHybrid (o : WObject) : HybridItem :=
  { uuid := o.uuid
    properties := o.properties
    meta := o.metadata.map fun m => (m.score, m.distance) }

/-- `hybrid_search` (fusion weight and property filters are forwarded to
the database opaquely): hybrid query, reshape, count + list; the
connection is always closed.  Note the Italian not-found message. -/
def hybrid_search (env : Env) (oracle : MintOracle) (world : World)
    (collection query : String) (limit : Nat) :
    Except String (ToolOut (SearchResponse HybridItem)) × List Ev :=
  match connect env oracle world with
  | Except.error e => (Except.error e, [])
  | Except.ok client =>
    withOpenClose (match client.collectionsGet collection with
      | none => Except.ok (ToolOut.errorDict (notFoundMsgIt collection))
      | some coll =>
        match coll.hybrid query limit with
        | Except.error e => Except.error e
        | Except.ok objs =>
          let out := objs.map reshapeHybrid
          Except.ok (ToolOut.ok { count := out.length, results := out }))

/-- The success dict of `insert_image_vertex`. -/
structure InsertOut where
  uuid : String
  named_vector : String
deriving DecidableEq, Repr

/-- `insert_image_vertex`: embed first (raising on failure, before any
connection is opened), then open, look up the collection, insert, always
closing the connection once opened. -/
def insert_image_vertex (env : Env) (oracle : MintOracle) (world : World)
    (collection : String) :
    Except String (ToolOut InsertOut) × List Ev :=
  match world.embed with
  | Except.error e => (Except.error e, [])
  | Except.ok _vec =>
    match connect env oracle world with
    | Except.error e => (Except.error e, [])
    | Except.ok client =>
      withOpenClose (match client.collectionsGet collection with
        | none => Except.ok (ToolOut.errorDict (notFoundMsg collection))
        | some coll =>
          match coll.insertData with
          | Except.error e => Except.error e
          | Except.ok uuid =>
            Except.ok (ToolOut.ok { uuid := uuid, named_vector := "image" }))

/-- `image_search_vertex`: embed first (raising on failure), then
near-vector query against the named `image` vector, reshape, count +
list; the connection is always closed once opened. -/
def image_search_vertex (env : Env) (oracle : MintOracle) (world : World)
    (collection : String) (limit : Nat) :
    Except String (ToolOut (SearchResponse DistanceItem)) × List Ev :=
  match world.embed with
  | Except.error e => (Except.error e, [])
  | Except.ok vec =>
    match connect env oracle world with
    | Except.error e => (Except.error e, [])
    | Except.ok client =>
      withOpenClose (match client.collectionsGet collection with
        | none => Except.ok (ToolOut.errorDict (notFoundMsg collection))
        | some coll =>
          match coll.nearVector vec limit with
          | Except.error e => Except.error e
          | Except.ok objs =>
            let out := objs.map reshapeDistance
            Except.ok (ToolOut.ok { count := out.length, results := out }))

/-- One successful mint observed by the refresh loop: the token string
and, when `creds.expiry` is set, the whole seconds from now until
expiry. -/
structure TokenInfo where
  token : String
  secondsUntilExpiry : Option Int
deriving DecidableEq, Repr

/-- The header set the refresh loop publishes to the shared
`_VERTEX_HEADERS` global after a successful mint. -/
def publishedHeaders (token : String) : List (String × String) :=
  [("X-Goog-Vertex-Api-Key", token), ("Authorization", "Bearer " ++ token)]

/-- Sleep computation after a successful refresh: default `55 * 60`
seconds; when the expiry is known, `delta = secondsUntilExpiry - 300`
replaces the default only when `delta > 300`. -/
def computeSleep (secondsUntilExpiry : Option Int) : Nat :=
  match secondsUntilExpiry with
  | none => 55 * 60
  | some s =>
    let delta := s - 300
    if delta > 300 then delta.toNat else 55 * 60

/-- Modelled from the spec: sleep until five minutes before expiry with
a five-minute minimum floor, defaulting to fifty-five minutes when the
expiry is unknown.  Stated only to compare with `computeSleep`. -/
def computeSleepSpec (secondsUntilExpiry : Option Int) : Nat :=
  match secondsUntilExpiry with
  | none => 55 * 60
  | some s => max (s - 300).toNat 300

/-- One iteration of the refresh loop body: what it publishes, how long
it sleeps, and whether the `while True` loop continues. -/
structure LoopOut where
  published : Option (List (String × String))
  sleepSeconds : Nat
  continues : Bool
deriving DecidableEq, Repr

/-- The body of `while True` in `_refresh_vertex_oauth_loop`: a
successful mint publishes the header pair and sleeps per `computeSleep`;
any raise inside the `try` is caught, nothing is published, and the loop
sleeps a fixed 60 seconds before retrying.  Both branches continue. -/
def refreshLoopBody (mint : Except String TokenInfo) : LoopOut :=
  match mint with
  | Except.error _ => { published := none, sleepSeconds := 60, continues := true }
  | Except.ok ti =>
    { published := some (publishedHeaders ti.token)
      sleepSeconds := computeSleep ti.secondsUntilExpiry
      continues := true }

/-- Refresher state: whether the module-level started flag
`_VERTEX_REFRESH_THREAD_STARTED` is set, and whether the refresh loop is
actually looping (`running = false` both when the thread was never
started and when it exited immediately for missing credentials). -/
structure RefresherState where
  threadStarted : Bool
  running : Bool
deriving DecidableEq, Repr

/-- The state before any call: flag unset, loop not running. -/
def initialRefresherState : RefresherState :=
  { threadStarted := false, running := false }

/-- ASCII lowercasing of one character, as `.lower()` behaves on the
ASCII range (the only range that can match the flag's comparison set). -/
def lowerChar (c : Char) : Char :=
  if 65 ≤ c.toNat ∧ c.toNat ≤ 90 then Char.ofNat (c.toNat + 32) else c

/-- ASCII lowercasing of a string. -/
def lowerAscii (s : String) : String :=
  ⟨s.data.map lowerChar⟩

/-- The opt-in gate: `VERTEX_USE_OAUTH` lowercased must be one of
`1`, `true`, `yes`. -/
def flagTruthy (env : Env) : Bool :=
  lowerAscii (env.vertexUseOauth.getD "") ∈ ["1", "true", "yes"]

/-- `_write_adc_from_json_env`: persist inline JSON credentials to the
fixed temporary path when no credential path is set, making the file
exist and pointing `GOOGLE_APPLICATION_CREDENTIALS` at it. -/
def write_adc_from_json_env (env : Env) : Env :=
  if truthy env.gacJson && !truthy env.gacPath then
    { env with
      gacPath := some tmpCredPath
      fileExists := fun p => p = tmpCredPath || env.fileExists p }
  else env

/-- The credential check at the top of `_refresh_vertex_oauth_loop`: the
loop proceeds only when `GOOGLE_APPLICATION_CREDENTIALS` is truthy and
the file exists; otherwise the thread logs and returns at once. -/
def refreshLoopStarts (env : Env) : Bool :=
  truthy env.gacPath && env.fileExists (env.gacPath.getD "")

/-- `_maybe_start_vertex_oauth_refresher`: a no-op when the started flag
is already set or the opt-in flag is not truthy; otherwise it persists
inline credentials, spawns the loop thread (which keeps running only
when the credential check passes) and sets the started flag.  The
function always returns normally — no branch raises. -/
def maybe_start_vertex_oauth_refresher (env : Env) (s : RefresherState) :
    Env × RefresherState :=
  if s.threadStarted then (env, s)
  else if !flagTruthy env then (env, s)
  else
    let env2 := write_adc_from_json_env env
    (env2, { threadStarted := true, running := refreshLoopStarts env2 })

/-- The refresher states observed after each of a sequence of calls to
`_maybe_start_vertex_oauth_refresher` (the environment seen by each call
is arbitrary; the state threads through). -/
def statesAfter (s : RefresherState) : List Env → List RefresherState
  | [] => []
  | e :: es =>
    let s2 := (maybe_start_vertex_oauth_refresher e s).2
    s2 :: statesAfter s2 es

/-- Count of `Disabled -> Running` edges along a state trace, given the
`running` bit before the first state. -/
def risingEdges : Bool → List RefresherState → Nat
  | _, [] => 0
  | prev, s :: rest => (if !prev && s.running then 1 else 0) + risingEdges s.running rest

/-- A concrete OAuth-mode environment: cluster URL and database key set,
no static Vertex key, a service-account file on disk, refresher opted
in. -/
def envOAuth : Env :=
  { weaviateClusterUrl := some "cluster.example"
    weaviateUrl := none
    weaviateApiKey := some "wcs-key"
    vertexApikey := none
    gacJson := none
    gacPath := some "/sa.json"
    vertexUseOauth := some "1"
    fileExists := fun _ => true }

/-- `envOAuth` with a non-empty static Vertex API key. -/
def envStaticKey : Env := { envOAuth with vertexApikey := some "vkey" }

/-- `envOAuth` with `VERTEX_APIKEY` set but empty. -/
def envEmptyKey : Env := { envOAuth with vertexApikey := some "" }

/-- An environment with nothing configured. -/
def envNoUrl : Env :=
  { weaviateClusterUrl := none
    weaviateUrl := none
    weaviateApiKey := none
    vertexApikey := none
    gacJson := none
    gacPath := none
    vertexUseOauth := none
    fileExists := fun _ => false }

/-- A mint oracle whose token exchange yields the given token. -/
def oracleTok (t : String) : MintOracle := { refreshResult := Except.ok (some t) }

/-- A mint oracle whose token exchange raises. -/
def oracleFail : MintOracle := { refreshResult := Except.error "mint failed" }

/-- A world whose session establishment and embedding both fail. -/
def worldNoop : World :=
  { establish := fun _ _ _ => Except.error "unreachable"
    embed := Except.error "no vertex" }

/-- A client session exposing its gRPC metadata store, pre-populated
with the database's own `authorization` entry, whose collection lookup
finds nothing. -/
def clientStub : Client :=
  { grpcMetadata := some [("authorization", "wcs-db-key")]
    isReady := Except.ok true
    collectionsGet := fun _ => none
    listAll := Except.ok [] }

/-- A world that establishes `clientStub`. -/
def worldStub : World :=
  { establish := fun _ _ _ => Except.ok clientStub
    embed := Except.ok [1, 2] }

/-- `clientStub` after the effective `_connect` injected the OAuth gRPC
added-keys map. -/
def clientStubInjected : Client :=
  injectGrpcMeta clientStub [("x-goog-vertex-api-key", "tok")]

/-- A query result object with both relevance fields. -/
def objStub : WObject :=
  { uuid := "u1"
    properties := [("title", "t")]
    metadata := some { score := some 7, distance := some 2 } }

/-- A collection whose every query returns exactly one object. -/
def collStub : Collection :=
  { bm25 := fun _ _ => Except.ok [objStub]
    nearText := fun _ _ => Except.ok [objStub]
    hybrid := fun _ _ => Except.ok [objStub]
    nearVector := fun _ _ => Except.ok [objStub]
    configGet := Except.ok "cfg"
    configGetClass := Except.error "na"
    insertData := Except.ok "uuid-1" }

/-- A client session whose collection lookup always finds `collStub`. -/
def clientFull : Client :=
  { grpcMetadata := some [("authorization", "wcs-db-key")]
    isReady := Except.ok true
    collectionsGet := fun _ => some collStub
    listAll := Except.ok ["B", "A", "A"] }

/-- A world that establishes `clientFull` and embeds successfully. -/
def worldFull : World :=
  { establish := fun _ _ _ => Except.ok clientFull
    embed := Except.ok [1, 2] }

theorem lookup_append_eq (l1 l2 : List (String × String)) (k : String) :
    (l1 ++ l2).lookup k =
      match l1.lookup k with
      | some v => some v
      | none => l2.lookup k := by
  induction l1 with
  | nil => rfl
  | cons kv rest ih =>
    obtain ⟨k1, v1⟩ := kv
    cases hb : k == k1 <;> simp [List.lookup_cons, hb, ih]

theorem lookup_map_override (upd : List (String × String)) (k : String)
    (h : upd.lookup k = none) :
    ∀ old : List (String × String),
      (old.map fun kv =>
        match upd.lookup kv.1 with
        | some v => (kv.1, v)
        | none => kv).lookup k = old.lookup k := by
  intro old
  induction old with
  | nil => rfl
  | cons kv rest ih =>
    obtain ⟨k1, v1⟩ := kv
    cases hb : k == k1
    · cases hu : upd.lookup k1 <;> simp [List.lookup_cons, hu, hb, ih]
    · have hk : k = k1 := eq_of_beq hb
      subst hk
      simp [List.lookup_cons, h]

theorem lookup_filter_none (p : String × String → Bool) (k : String) :
    ∀ upd : List (String × String), upd.lookup k = none →
      (upd.filter p).lookup k = none := by
  intro upd
  induction upd with
  | nil => intro _; rfl
  | cons kv rest ih =>
    intro h
    obtain ⟨k1, v1⟩ := kv
    cases hb : k == k1
    · have h2 : rest.lookup k = none := by simpa [List.lookup_cons, hb] using h
      by_cases hp : p (k1, v1) = true <;>
        simp [List.filter_cons, hp, List.lookup_cons, hb, ih h2]
    · simp [List.lookup_cons, hb] at h

theorem dictUpdate_lookup_of_not_mem (old upd : List (String × String)) (k : String)
    (h : upd.lookup k = none) :
    (dictUpdate old upd).lookup k = old.lookup k := by
  unfold dictUpdate
  rw [lookup_append_eq, lookup_map_override upd k h old]
  cases ho : old.lookup k <;>
    simp [lookup_filter_none _ k upd h, ho]

theorem connectGrpcMetaAdd_lookup_auth (env : Env) (rh : List (String × String)) :
    (connectGrpcMetaAdd env rh).lookup "authorization" = none := by
  unfold connectGrpcMetaAdd
  by_cases hv : truthy env.vertexApikey = true
  · simp [hv, grpcKeyNames, List.lookup_cons]
  · simp only [hv, Bool.false_eq_true, if_false, if_neg]
    cases hr : rh.lookup "X-Goog-Vertex-Api-Key" with
    | none => simp
    | some v =>
      by_cases hz : v = "" <;> simp [hz, List.lookup_cons]

theorem maybe_start_of_started (env : Env) (s : RefresherState)
    (h : s.threadStarted = true) :
    maybe_start_vertex_oauth_refresher env s = (env, s) := by
  unfold maybe_start_vertex_oauth_refresher
  simp [h]

theorem statesAfter_of_started :
    ∀ (envs : List Env) (s : RefresherState), s.threadStarted = true →
      statesAfter s envs = List.replicate envs.length s := by
  intro envs
  induction envs with
  | nil => intro s _; rfl
  | cons e es ih =>
    intro s h
    simp [statesAfter, maybe_start_of_started e s h, List.replicate_succ, ih s h]

theorem risingEdges_replicate (s : RefresherState) :
    ∀ n : Nat, risingEdges s.running (List.replicate n s) = 0 := by
  intro n
  induction n with
  | zero => rfl
  | succ n ih =>
    cases hr : s.running <;>
      simp [List.replicate_succ, risingEdges, hr, hr ▸ ih]

theorem risingEdges_le_one_aux :
    ∀ (envs : List Env) (s : RefresherState),
      (s.running = true → s.threadStarted = true) →
      risingEdges s.running (statesAfter s envs) ≤ 1 := by
  intro envs
  induction envs with
  | nil => intro s _; simp [statesAfter, risingEdges]
  | cons e es ih =>
    intro s hinv
    by_cases hs : s.threadStarted = true
    · have hid : maybe_start_vertex_oauth_refresher e s = (e, s) :=
        maybe_start_of_started e s hs
      have hrep : statesAfter s es = List.replicate es.length s :=
        statesAfter_of_started es s hs
      have hz : risingEdges s.running (statesAfter s (e :: es)) = 0 := by
        simp [statesAfter, hid, risingEdges, hrep, risingEdges_replicate]
      simp [hz]
    · have hr : s.running = false := by
        cases hrun : s.running
        · rfl
        · exact absurd (hinv hrun) hs
      by_cases hf : flagTruthy e = true
      · have hstep : (maybe_start_vertex_oauth_refresher e s).2 =
            { threadStarted := true
              running := refreshLoopStarts (write_adc_from_json_env e) } := by
          unfold maybe_start_vertex_oauth_refresher
          simp [hs, hf]
        have hrep : statesAfter (maybe_start_vertex_oauth_refresher e s).2 es =
            List.replicate es.length (maybe_start_vertex_oauth_refresher e s).2 := by
          refine statesAfter_of_started es _ ?_
          rw [hstep]
        have hz : risingEdges ((maybe_start_vertex_oauth_refresher e s).2).running
            (statesAfter (maybe_start_vertex_oauth_refresher e s).2 es) = 0 := by
          rw [hrep]; exact risingEdges_replicate _ es.length
        simp only [statesAfter, risingEdges, hr, hz]
        cases ((maybe_start_vertex_oauth_refresher e s).2).running <;> simp
      · have hid : maybe_start_vertex_oauth_refresher e s = (e, s) := by
          unfold maybe_start_vertex_oauth_refresher
          simp [hs, hf]
        have htail : risingEdges s.running (statesAfter s es) ≤ 1 := ih s hinv
        simp only [statesAfter, hid, risingEdges, hr]
        simpa [hr] using htail

/-- Claim C1, counterexample: in the OAuth path, `_build_vertex_headers`
(the composer the claim cites) adds the bearer header on BOTH
transports, its gRPC map does contain the `authorization` key, and
merging that map into a metadata store that already carries the
database's `authorization` entry overwrites it. -/
theorem claim_C1_counterexample :
    build_vertex_headers envOAuth (oracleTok "tok") =
      Except.ok
        { rest := [("X-Goog-Vertex-Api-Key", "tok"), ("Authorization", "Bearer tok")]
          grpc := [("x-goog-vertex-api-key", "tok"), ("authorization", "Bearer tok")]
          mintCalls := 1 } ∧
    ([("x-goog-vertex-api-key", "tok"), ("authorization", "Bearer tok")] :
        List (String × String)).lookup "authorization" = some "Bearer tok" ∧
    dictUpdate [("authorization", "wcs-db-key")]
        [("x-goog-vertex-api-key", "tok"), ("authorization", "Bearer tok")] =
      [("authorization", "Bearer tok"), ("x-goog-vertex-api-key", "tok")] := by
  refine ⟨rfl, by decide, by decide⟩

/-- Claim C1 (amended): in the OAuth path of the EFFECTIVE header
composition (the later `_connect` definition, which wins at module
load), the token is written under one canonical header name per
transport, no bearer-style Authorization header is added on either
transport, and the gRPC added-keys map never contains `authorization`,
so a pre-existing `authorization` metadata entry survives the injection
step.  The superseded `_build_vertex_headers` composer, by contrast,
adds the bearer header on both transports (see the counterexample). -/
theorem claim_C1 :
    ∀ (env : Env) (oracle : MintOracle) (rh store : List (String × String))
      (p t wcsKey : String),
      truthy env.vertexApikey = false →
      resolvedGacPath env = some p → p ≠ "" →
      oracle.refreshResult = Except.ok (some t) → t ≠ "" →
      store.lookup "authorization" = some wcsKey →
      connectRestHeaders env oracle = ([("X-Goog-Vertex-Api-Key", t)], 1) ∧
      connectGrpcMetaAdd env [("X-Goog-Vertex-Api-Key", t)] = [("x-goog-vertex-api-key", t)] ∧
      ([("X-Goog-Vertex-Api-Key", t)] : List (String × String)).lookup "Authorization" = none ∧
      (connectGrpcMetaAdd env rh).lookup "authorization" = none ∧
      (dictUpdate store (connectGrpcMetaAdd env rh)).lookup "authorization" = some wcsKey := by
  intro env oracle rh store p t wcsKey hv hp hpne ho ht hstore
  have ht2 : truthy (some t) = true := by simp [truthy, ht]
  have h1 : connectRestHeaders env oracle = ([("X-Goog-Vertex-Api-Key", t)], 1) := by
    unfold connectRestHeaders
    simp [hv, hp, hpne, ho, ht2]
  refine ⟨h1, ?_, ?_, connectGrpcMetaAdd_lookup_auth env rh, ?_⟩
  · unfold connectGrpcMetaAdd
    simp [hv, List.lookup_cons, ht]
  · simp [List.lookup_cons]
  · rw [dictUpdate_lookup_of_not_mem store _ _ (connectGrpcMetaAdd_lookup_auth env rh)]
    exact hstore

theorem claim_C1_witness :
    (truthy envOAuth.vertexApikey = false ∧
     resolvedGacPath envOAuth = some "/sa.json" ∧
     (oracleTok "tok").refreshResult = Except.ok (some "tok") ∧
     ([("authorization", "wcs-db-key")] : List (String × String)).lookup "authorization" =
       some "wcs-db-key") ∧
    connectRestHeaders envOAuth (oracleTok "tok") = ([("X-Goog-Vertex-Api-Key", "tok")], 1) ∧
    (dictUpdate [("authorization", "wcs-db-key")]
        (connectGrpcMetaAdd envOAuth [("X-Goog-Vertex-Api-Key", "tok")])).lookup
      "authorization" = some "wcs-db-key" := by
  have h := claim_C1 envOAuth (oracleTok "tok") [("X-Goog-Vertex-Api-Key", "tok")]
    [("authorization", "wcs-db-key")] "/sa.json" "tok" "wcs-db-key"
    (by decide) (by decide) (by decide) rfl (by decide) (by decide)
  exact ⟨⟨by decide, by decide, rfl, by decide⟩, h.1, h.2.2.2.2⟩

/-- Claim C2, counterexample: `VERTEX_APIKEY` set to the empty string is
a set static key under which both header-composition paths still
attempt a token mint (mint count 1, not 0) and produce OAuth-shaped
headers instead of the four legacy names. -/
theorem claim_C2_counterexample :
    envEmptyKey.vertexApikey = some "" ∧
    (connectRestHeaders envEmptyKey (oracleTok "tok")).2 = 1 ∧
    ¬ (connectRestHeaders envEmptyKey (oracleTok "tok")).2 = 0 ∧
    build_vertex_headers envEmptyKey (oracleTok "tok") =
      Except.ok
        { rest := [("X-Goog-Vertex-Api-Key", "tok"), ("Authorization", "Bearer tok")]
          grpc := [("x-goog-vertex-api-key", "tok"), ("authorization", "Bearer tok")]
          mintCalls := 1 } := by
  refine ⟨rfl, rfl, by decide, rfl⟩

/-- Claim C2 (amended): for every environment in which `VERTEX_APIKEY`
is set to a NON-EMPTY value, neither composition path performs a
token-minting call, and the static key is written under the four
legacy-compatible names for the REST transport and their lowercase
equivalents for the gRPC transport. -/
theorem claim_C2 :
    ∀ (env : Env) (oracle : MintOracle) (k : String),
      env.vertexApikey = some k → k ≠ "" →
      build_vertex_headers env oracle =
        Except.ok
          { rest := restKeyNames.map fun n => (n, k)
            grpc := grpcKeyNames.map fun n => (n, k)
            mintCalls := 0 } ∧
      connectRestHeaders env oracle = (restKeyNames.map fun n => (n, k), 0) ∧
      connectGrpcMetaAdd env (restKeyNames.map fun n => (n, k)) =
        grpcKeyNames.map fun n => (n, k) := by
  intro env oracle k hk hne
  have ht2 : truthy (some k) = true := by simp [truthy, hne]
  refine ⟨?_, ?_, ?_⟩
  · simp [build_vertex_headers, hk, ht2]
  · simp [connectRestHeaders, hk, ht2]
  · simp [connectGrpcMetaAdd, hk, ht2]

theorem claim_C2_witness :
    (envStaticKey.vertexApikey = some "vkey" ∧ "vkey" ≠ "") ∧
    build_vertex_headers envStaticKey oracleFail =
      Except.ok
        { rest := restKeyNames.map fun n => (n, "vkey")
          grpc := grpcKeyNames.map fun n => (n, "vkey")
          mintCalls := 0 } ∧
    connectRestHeaders envStaticKey oracleFail = (restKeyNames.map fun n => (n, "vkey"), 0) := by
  have h := claim_C2 envStaticKey oracleFail "vkey" (by decide) (by decide)
  exact ⟨⟨by decide, by decide⟩, h.1, h.2.1⟩

/-- Claim C4, counterexample: with the refresher active and the shared
Header Set holding a published token, the effective `_connect` still
recomposes headers itself and attaches a freshly minted token, not the
published one — the Connection Factory does not read the shared set. -/
theorem claim_C4_counterexample :
    connectAttachedHeaders (publishedHeaders "tokA") envOAuth (oracleTok "tokB") =
      [("X-Goog-Vertex-Api-Key", "tokB")] ∧
    connectAttachedHeaders (publishedHeaders "tokA") envOAuth (oracleTok "tokB") ≠
      publishedHeaders "tokA" := by
  refine ⟨rfl, by decide⟩

/-- Claim C4 (amended): the headers the effective `_connect` attaches to
a new session are independent of the shared Header Set published by the
background refresher; the factory recomposes them (static key or a
fresh synchronous mint) on every connection. -/
theorem claim_C4 :
    ∀ (s1 s2 : List (String × String)) (env : Env) (oracle : MintOracle),
      connectAttachedHeaders s1 env oracle = connectAttachedHeaders s2 env oracle := by
  intro s1 s2 env oracle
  rfl

/-- Claim C5: every mint failure inside the refresh loop body publishes
nothing, sleeps the fixed 60-second backoff, and continues the loop; in
particular three consecutive failures yield three 60-second sleeps with
the loop still running, and no iteration (success or failure) ever
terminates the loop. -/
theorem claim_C5 :
    ∀ e e1 e2 e3 : String,
      refreshLoopBody (Except.error e) =
        { published := none, sleepSeconds := 60, continues := true } ∧
      ([e1, e2, e3].map fun x => refreshLoopBody (Except.error x)) =
        List.replicate 3 { published := none, sleepSeconds := 60, continues := true } ∧
      ∀ m : Except String TokenInfo, (refreshLoopBody m).continues = true := by
  intro e e1 e2 e3
  refine ⟨rfl, rfl, ?_⟩
  intro m
  cases m <;> rfl

/-- Claim C6, counterexample: with the token expiring 400 seconds from
now, the code sleeps the 55-minute default (3300 s), while the claimed
five-minute floor would sleep 300 s — there is no five-minute floor. -/
theorem claim_C6_counterexample :
    computeSleep (some 400) = 3300 ∧
    computeSleepSpec (some 400) = 300 ∧
    computeSleep (some 400) ≠ computeSleepSpec (some 400) := by
  refine ⟨by decide, by decide, by decide⟩

/-- Claim C6 (amended): after a successful refresh the sleep is the time
until five minutes before expiry only when that exceeds five minutes;
in every other case — expiry unknown, near, or past — it is the
55-minute default.  There is no five-minute minimum floor. -/
theorem claim_C6 :
    ∀ s t : Int, s - 300 > 300 → t - 300 ≤ 300 →
      computeSleep none = 55 * 60 ∧
      computeSleep (some s) = (s - 300).toNat ∧
      computeSleep (some t) = 55 * 60 := by
  intro s t hs ht
  refine ⟨rfl, ?_, ?_⟩
  · simp [computeSleep, hs]
  · simp [computeSleep]
    omega

theorem claim_C6_witness :
    ((1000 : Int) - 300 > 300 ∧ (400 : Int) - 300 ≤ 300) ∧
    computeSleep none = 55 * 60 ∧
    computeSleep (some 1000) = ((1000 : Int) - 300).toNat ∧
    computeSleep (some 400) = 55 * 60 :=
  ⟨⟨by decide, by decide⟩, claim_C6 1000 400 (by decide) (by decide)⟩

theorem get_weaviate_url_error (env : Env)
    (h : truthy (pyOr env.weaviateClusterUrl env.weaviateUrl) = false) :
    get_weaviate_url env = Except.error urlMissingMsg := by
  unfold get_weaviate_url
  cases hp : pyOr env.weaviateClusterUrl env.weaviateUrl with
  | none => rfl
  | some u =>
    rw [hp] at h
    simp [truthy] at h
    simp [h]

/-- Claim C3, counterexample: with neither database URL variable set, a
`check_connection` invocation yields a raised configuration exception,
not a JSON-shaped result with an `error` field — the caller does
receive an exception. -/
theorem claim_C3_counterexample :
    check_connection envNoUrl oracleFail worldNoop = (Except.error urlMissingMsg, []) ∧
    (check_connection envNoUrl oracleFail worldNoop).1 ≠
      Except.ok (ToolOut.errorDict urlMissingMsg) := by
  refine ⟨rfl, ?_⟩
  intro hcontra
  exact Except.noConfusion hcontra

/-- Claim C3 (amended): tool invocations are not exception-free.  When
the database endpoint configuration is absent, the configuration error
raises out of the tool (shown for `check_connection`); the
collection-not-found failure, by contrast, is returned as a structured
dict carrying an `error` field with no exception (shown for
`keyword_search`). -/
theorem claim_C3 :
    (∀ (env : Env) (oracle : MintOracle) (world : World),
        truthy (pyOr env.weaviateClusterUrl env.weaviateUrl) = false →
        check_connection env oracle world = (Except.error urlMissingMsg, [])) ∧
    (∀ (env : Env) (oracle : MintOracle) (world : World) (client : Client)
        (collection query : String) (lim : Nat),
        connect env oracle world = Except.ok client →
        client.collectionsGet collection = none →
        keyword_search env oracle world collection query lim =
          (Except.ok (ToolOut.errorDict (notFoundMsg collection)), [Ev.opened, Ev.closed])) := by
  constructor
  · intro env oracle world h
    have hu := get_weaviate_url_error env h
    unfold check_connection connect
    rw [hu]
  · intro env oracle world client collection query lim hc hl
    unfold keyword_search
    rw [hc]
    simp [withOpenClose, hl]

theorem claim_C3_witness :
    (truthy (pyOr envNoUrl.weaviateClusterUrl envNoUrl.weaviateUrl) = false ∧
     connect envOAuth (oracleTok "tok") worldStub = Except.ok clientStubInjected ∧
     clientStubInjected.collectionsGet "missing" = none) ∧
    check_connection envNoUrl oracleFail worldNoop = (Except.error urlMissingMsg, []) ∧
    keyword_search envOAuth (oracleTok "tok") worldStub "missing" "q" 5 =
      (Except.ok (ToolOut.errorDict (notFoundMsg "missing")), [Ev.opened, Ev.closed]) :=
  ⟨⟨by decide, rfl, rfl⟩,
    claim_C3.1 envNoUrl oracleFail worldNoop (by decide),
    claim_C3.2 envOAuth (oracleTok "tok") worldStub clientStubInjected "missing" "q" 5 rfl rfl⟩

/-- Claim C7: the background refresher moves from `Disabled` to
`Running` at most once over any sequence of start calls from the
initial state; a state becomes running only when the opt-in flag is
truthy and the credential material (after persisting inline JSON) is
resolvable; once the started flag is set, and likewise whenever the
opt-in flag is not set, a start call changes nothing (and every branch
returns normally, so staying `Disabled` is never a fatal error). -/
theorem claim_C7 :
    (∀ envs : List Env,
        risingEdges initialRefresherState.running
          (statesAfter initialRefresherState envs) ≤ 1) ∧
    (∀ (env : Env) (s : RefresherState),
        ((maybe_start_vertex_oauth_refresher env s).2).running = true →
        s.running = true ∨
          (flagTruthy env = true ∧
            refreshLoopStarts (write_adc_from_json_env env) = true)) ∧
    (∀ (env : Env) (s : RefresherState), s.threadStarted = true →
        maybe_start_vertex_oauth_refresher env s = (env, s)) ∧
    (∀ (env : Env) (s : RefresherState), flagTruthy env = false →
        maybe_start_vertex_oauth_refresher env s = (env, s)) := by
  refine ⟨?_, ?_, ?_, ?_⟩
  · intro envs
    exact risingEdges_le_one_aux envs initialRefresherState (fun h => Bool.noConfusion h)
  · intro env s h
    unfold maybe_start_vertex_oauth_refresher at h
    by_cases h1 : s.threadStarted = true
    · simp [h1] at h
      exact Or.inl h
    · by_cases h2 : flagTruthy env = true
      · simp [h1, h2] at h
        exact Or.inr ⟨h2, h⟩
      · simp [h1, h2] at h
        exact Or.inl h
  · intro env s h
    exact maybe_start_of_started env s h
  · intro env s h
    unfold maybe_start_vertex_oauth_refresher
    by_cases h1 : s.threadStarted = true <;> simp [h1, h]

theorem claim_C7_witness :
    (({ threadStarted := true, running := true } : RefresherState).threadStarted = true ∧
     ((maybe_start_vertex_oauth_refresher envOAuth initialRefresherState).2).running = true) ∧
    maybe_start_vertex_oauth_refresher envOAuth { threadStarted := true, running := true } =
      (envOAuth, { threadStarted := true, running := true }) ∧
    (initialRefresherState.running = true ∨
      (flagTruthy envOAuth = true ∧
        refreshLoopStarts (write_adc_from_json_env envOAuth) = true)) :=
  ⟨⟨rfl, by decide⟩,
    claim_C7.2.2.1 envOAuth { threadStarted := true, running := true } rfl,
    claim_C7.2.1 envOAuth initialRefresherState (by decide)⟩

/-- Claim C8: whenever the connection is established and the client's
collection lookup yields no collection, `get_schema` returns the
structured not-found dict for that name and raises nothing, closing the
connection. -/
theorem claim_C8 :
    ∀ (env : Env) (oracle : MintOracle) (world : World) (client : Client)
      (collection : String),
      connect env oracle world = Except.ok client →
      client.collectionsGet collection = none →
      get_schema env oracle world collection =
        (Except.ok (ToolOut.errorDict
            ("Collection " ++ sq ++ collection ++ sq ++ " not found")),
          [Ev.opened, Ev.closed]) := by
  intro env oracle world client collection hc hl
  unfold get_schema
  rw [hc]
  simp [withOpenClose, hl, notFoundMsg]

theorem claim_C8_witness :
    (connect envOAuth (oracleTok "tok") worldStub = Except.ok clientStubInjected ∧
     clientStubInjected.collectionsGet "missing_collection" = none) ∧
    get_schema envOAuth (oracleTok "tok") worldStub "missing_collection" =
      (Except.ok (ToolOut.errorDict
          ("Collection " ++ sq ++ "missing_collection" ++ sq ++ " not found")),
        [Ev.opened, Ev.closed]) :=
  ⟨⟨rfl, rfl⟩,
    claim_C8 envOAuth (oracleTok "tok") worldStub clientStubInjected "missing_collection" rfl rfl⟩

/-- Claim C9: every tool handler that opens a database connection emits
a balanced lifecycle trace — either no acquisition happened (the trace
is empty, possible only when `_connect` or the preceding embedding call
raised) or the connection was opened and then closed, on the success
path and on every failure path after acquisition. -/
theorem claim_C9 :
    ∀ (env : Env) (oracle : MintOracle) (world : World) (c q : String) (lim : Nat),
      ((check_connection env oracle world).2 = [] ∨
        (check_connection env oracle world).2 = [Ev.opened, Ev.closed]) ∧
      ((list_collections env oracle world).2 = [] ∨
        (list_collections env oracle world).2 = [Ev.opened, Ev.closed]) ∧
      ((get_schema env oracle world c).2 = [] ∨
        (get_schema env oracle world c).2 = [Ev.opened, Ev.closed]) ∧
      ((keyword_search env oracle world c q lim).2 = [] ∨
        (keyword_search env oracle world c q lim).2 = [Ev.opened, Ev.closed]) ∧
      ((semantic_search env oracle world c q lim).2 = [] ∨
        (semantic_search env oracle world c q lim).2 = [Ev.opened, Ev.closed]) ∧
      ((hybrid_search env oracle world c q lim).2 = [] ∨
        (hybrid_search env oracle world c q lim).2 = [Ev.opened, Ev.closed]) ∧
      ((insert_image_vertex env oracle world c).2 = [] ∨
        (insert_image_vertex env oracle world c).2 = [Ev.opened, Ev.closed]) ∧
      ((image_search_vertex env oracle world c lim).2 = [] ∨
        (image_search_vertex env oracle world c lim).2 = [Ev.opened, Ev.closed]) := by
  intro env oracle world c q lim
  refine ⟨?_, ?_, ?_, ?_, ?_, ?_, ?_, ?_⟩
  · cases h : connect env oracle world <;> simp [check_connection, h, withOpenClose]
  · cases h : connect env oracle world <;> simp [list_collections, h, withOpenClose]
  · cases h : connect env oracle world <;> simp [get_schema, h, withOpenClose]
  · cases h : connect env oracle world <;> simp [keyword_search, h, withOpenClose]
  · cases h : connect env oracle world <;> simp [semantic_search, h, withOpenClose]
  · cases h : connect env oracle world <;> simp [hybrid_search, h, withOpenClose]
  · cases he : world.embed
    · simp [insert_image_vertex, he]
    · cases h : connect env oracle world <;> simp [insert_image_vertex, he, h, withOpenClose]
  · cases he : world.embed
    · simp [image_search_vertex, he]
    · cases h : connect env oracle world <;> simp [image_search_vertex, he, h, withOpenClose]

/-- Claim C10: for every successful invocation of `keyword_search`,
`semantic_search`, `hybrid_search`, or `image_search_vertex`, the
returned `count` field equals the length of the returned `results`
list. -/
theorem claim_C10 :
    (∀ (env : Env) (oracle : MintOracle) (world : World) (c q : String) (lim : Nat)
        (r : SearchResponse KeywordItem),
        (keyword_search env oracle world c q lim).1 = Except.ok (ToolOut.ok r) →
        r.count = r.results.length) ∧
    (∀ (env : Env) (oracle : MintOracle) (world : World) (c q : String) (lim : Nat)
        (r : SearchResponse DistanceItem),
        (semantic_search env oracle world c q lim).1 = Except.ok (ToolOut.ok r) →
        r.count = r.results.length) ∧
    (∀ (env : Env) (oracle : MintOracle) (world : World) (c q : String) (lim : Nat)
        (r : SearchResponse HybridItem),
        (hybrid_search env oracle world c q lim).1 = Except.ok (ToolOut.ok r) →
        r.count = r.results.length) ∧
    (∀ (env : Env) (oracle : MintOracle) (world : World) (c : String) (lim : Nat)
        (r : SearchResponse DistanceItem),
        (image_search_vertex env oracle world c lim).1 = Except.ok (ToolOut.ok r) →
        r.count = r.results.length) := by
  refine ⟨?_, ?_, ?_, ?_⟩
  · intro env oracle world c q lim r hr
    cases h1 : connect env oracle world with
    | error e => simp [keyword_search, h1] at hr
    | ok client =>
      cases h2 : client.collectionsGet c with
      | none => simp [keyword_search, h1, h2, withOpenClose] at hr
      | some coll =>
        cases h3 : coll.bm25 q lim with
        | error e => simp [keyword_search, h1, h2, h3, withOpenClose] at hr
        | ok objs =>
          simp only [keyword_search, h1, h2, h3, withOpenClose, Except.ok.injEq,
            ToolOut.ok.injEq] at hr
          subst hr
          simp
  · intro env oracle world c q lim r hr
    cases h1 : connect env oracle world with
    | error e => simp [semantic_search, h1] at hr
    | ok client =>
      cases h2 : client.collectionsGet c with
      | none => simp [semantic_search, h1, h2, withOpenClose] at hr
      | some coll =>
        cases h3 : coll.nearText q lim with
        | error e => simp [semantic_search, h1, h2, h3, withOpenClose] at hr
        | ok objs =>
          simp only [semantic_search, h1, h2, h3, withOpenClose, Except.ok.injEq,
            ToolOut.ok.injEq] at hr
          subst hr
          simp
  · intro env oracle world c q lim r hr
    cases h1 : connect env oracle world with
    | error e => simp [hybrid_search, h1] at hr
    | ok client =>
      cases h2 : client.collectionsGet c with
      | none => simp [hybrid_search, h1, h2, withOpenClose] at hr
      | some coll =>
        cases h3 : coll.hybrid q lim with
        | error e => simp [hybrid_search, h1, h2, h3, withOpenClose] at hr
        | ok objs =>
          simp only [hybrid_search, h1, h2, h3, withOpenClose, Except.ok.injEq,
            ToolOut.ok.injEq] at hr
          subst hr
          simp
  · intro env oracle world c lim r hr
    cases he : world.embed with
    | error e => simp [image_search_vertex, he] at hr
    | ok vec =>
      cases h1 : connect env oracle world with
      | error e => simp [image_search_vertex, he, h1] at hr
      | ok client =>
        cases h2 : client.collectionsGet c with
        | none => simp [image_search_vertex, he, h1, h2, withOpenClose] at hr
        | some coll =>
          cases h3 : coll.nearVector vec lim with
          | error e => simp [image_search_vertex, he, h1, h2, h3, withOpenClose] at hr
          | ok objs =>
            simp only [image_search_vertex, he, h1, h2, h3, withOpenClose, Except.ok.injEq,
              ToolOut.ok.injEq] at hr
            subst hr
            simp

theorem claim_C10_witness :
    ((keyword_search envOAuth (oracleTok "tok") worldFull "c" "q" 5).1 =
        Except.ok (ToolOut.ok { count := 1, results := [reshapeKeyword objStub] }) ∧
     (semantic_search envOAuth (oracleTok "tok") worldFull "c" "q" 5).1 =
        Except.ok (ToolOut.ok { count := 1, results := [reshapeDistance objStub] }) ∧
     (hybrid_search envOAuth (oracleTok "tok") worldFull "c" "q" 5).1 =
        Except.ok (ToolOut.ok { count := 1, results := [reshapeHybrid objStub] }) ∧
     (image_search_vertex envOAuth (oracleTok "tok") worldFull "c" 5).1 =
        Except.ok (ToolOut.ok { count := 1, results := [reshapeDistance objStub] })) ∧
    ({ count := 1, results := [reshapeKeyword objStub] :
        SearchResponse KeywordItem }.count = [reshapeKeyword objStub].length ∧
     { count := 1, results := [reshapeDistance objStub] :
        SearchResponse DistanceItem }.count = [reshapeDistance objStub].length ∧
     { count := 1, results := [reshapeHybrid objStub] :
        SearchResponse HybridItem }.count = [reshapeHybrid objStub].length) :=
  ⟨⟨rfl, rfl, rfl, rfl⟩,
    claim_C10.1 envOAuth (oracleTok "tok") worldFull "c" "q" 5
      { count := 1, results := [reshapeKeyword objStub] } rfl,
    claim_C10.2.1 envOAuth (oracleTok "tok") worldFull "c" "q" 5
      { count := 1, results := [reshapeDistance objStub] } rfl,
    claim_C10.2.2.1 envOAuth (oracleTok "tok") worldFull "c" "q" 5
      { count := 1, results := [reshapeHybrid objStub] } rfl⟩

end Serve
